import Mathlib

/-!
# Verification of the mod_weather_vibe zone weather scheduler

A shallow embedding of src/mod_weather_vibe.cpp. Machine floats are
idealised as rationals, the random source (urand / RandUnit /
RandDuration) is injected as explicit draw parameters, and the
fire-and-forget sink is modelled by returning the list of pushed
(zone, state, grade) records. Field and function names follow the
source where Lean allows it.
-/

set_option autoImplicit false

namespace WeatherVibe

/-- Weather state identifiers; WEATHER_STATE_FINE is 0, FOG is 1, and so on. -/
abbrev WeatherState := Nat

/-- The sentinel default weather state, WEATHER_STATE_FINE. -/
def WEATHER_STATE_FINE : WeatherState := 0

/-- Day part (the time bucket) as in the source enum. -/
inductive DayPart where
  | MORNING
  | AFTERNOON
  | EVENING
  | NIGHT
deriving DecidableEq

/-- Scheduler phase of a zone, as in the source enum Phase. -/
inductive Phase where
  | Idle
  | FadeOut
  | FadeIn
  | Dwell
deriving DecidableEq

/-- Repeat-avoidance state per zone (struct RepeatState). -/
structure RepeatState where
  lastPicked : WeatherState := WEATHER_STATE_FINE
  repeats : Nat := 0
deriving DecidableEq

/-- Per-zone scheduler runtime (struct ZoneRuntime). Grades are rationals. -/
structure ZoneRuntime where
  zoneId : Nat := 0
  msAccumulator : Nat := 0
  stepRemainingMs : Nat := 0
  phaseRemainingMs : Nat := 0
  zoneOffsetMs : Nat := 0
  phase : Phase := Phase.Idle
  currentState : WeatherState := WEATHER_STATE_FINE
  currentGrade : ℚ := 0
  fadeOutStepsLeft : ℤ := 0
  fadeOutStart : ℚ := 0
  fadeOutTarget : ℚ := 0
  fadeInStepsLeft : ℤ := 0
  fadeInStart : ℚ := 0
  apexTarget : ℚ := 0
  nextState : WeatherState := WEATHER_STATE_FINE
  rpt : RepeatState := {}
  initialized : Bool := false
deriving DecidableEq

/-- One weighted candidate of a zone and daypart (struct ZoneEffectEntry). -/
structure ZoneEffectEntry where
  state : WeatherState := WEATHER_STATE_FINE
  weight : ℚ := 0
  minPct : ℚ := 0
  maxPct : ℚ := 0
  dwellMinSec : Nat := 0
  dwellMaxSec : Nat := 0
deriving DecidableEq

/-- Candidate list of a zone for one daypart (struct ZoneDaypartConfig). -/
structure ZoneDaypartConfig where
  entries : List ZoneEffectEntry := []
deriving DecidableEq

/-- HasAnyActive from the source: some entry has weight strictly above zero. -/
def ZoneDaypartConfig.HasAnyActive (c : ZoneDaypartConfig) : Bool :=
  c.entries.any fun e => decide (0 < e.weight)

/-- Intensity range of one weather state (struct Range). -/
structure Range where
  min : ℚ := 0
  max : ℚ := 1
deriving DecidableEq

/-- The engine globals read from configuration (g_RepeatMax, g_FadeStepValue,
g_IntervalSec, g_StateRanges, g_ZoneModel and so on), frozen for a cycle. -/
structure Env where
  repeatMax : Nat := 2
  fadeStepValue : ℚ := 1/20
  fadeStepMinSec : Nat := 30
  fadeStepMaxSec : Nat := 40
  intervalSec : Nat := 10
  stateRanges : DayPart → WeatherState → Option Range := fun _ _ => none
  zoneModel : DayPart → Nat → Option ZoneDaypartConfig := fun _ _ => none

/-- Constant kMinGrade from the source. -/
def kMinGrade : ℚ := 1/10000

/-- Constant kMaxGrade from the source. -/
def kMaxGrade : ℚ := 9999/10000

/-- ClampToCoreBounds: raw grades below 0 become kMinGrade, grades at or
above 1 become kMaxGrade, anything else passes through. -/
def ClampToCoreBounds (g : ℚ) : ℚ :=
  if g < 0 then kMinGrade
  else if 1 ≤ g then kMaxGrade
  else g

/-- GetRange: configured range for a daypart and state, defaulting to
[3/10, 9/10] when absent (this is the fallback used by the planner). -/
def GetRange (env : Env) (dp : DayPart) (st : WeatherState) : Range :=
  (env.stateRanges dp st).getD ⟨3/10, 9/10⟩

/-- MapPercentToRawGrade: clamp the percent into [0,1] and interpolate in
the configured range, defaulting to [3/10, 1] when absent. -/
def MapPercentToRawGrade (env : Env) (dp : DayPart) (st : WeatherState) (percent01 : ℚ) : ℚ :=
  let p := min 1 (max 0 percent01)
  let r := (env.stateRanges dp st).getD ⟨3/10, 1⟩
  r.min + p * (r.max - r.min)

/-- A record of one sink call: applyEffect(zoneId, state, grade). -/
structure Push where
  zoneId : Nat
  state : WeatherState
  grade : ℚ
deriving DecidableEq

/-- PushWeatherToClient normalises the raw grade through ClampToCoreBounds
and emits the packet; the same normalised value is recorded. -/
def PushWeatherToClient (zoneId : Nat) (state : WeatherState) (rawGrade : ℚ) : Push :=
  ⟨zoneId, state, ClampToCoreBounds rawGrade⟩

/-- The last-applied cache entry (struct LastApplied). -/
structure LastApplied where
  state : WeatherState := WEATHER_STATE_FINE
  grade : ℚ := 0
  hasValue : Bool := false
deriving DecidableEq

/-- Record one push into the last-applied cache (g_LastApplied update). -/
def applyPush (m : Nat → Option LastApplied) (p : Push) : Nat → Option LastApplied :=
  fun z => if z = p.zoneId then some ⟨p.state, p.grade, true⟩ else m z

/-- Record a sequence of pushes into the last-applied cache. -/
def applyPushes (m : Nat → Option LastApplied) (ps : List Push) : Nat → Option LastApplied :=
  ps.foldl applyPush m

/-- The roulette walk of WeightedPick: subtract weights from the draw until
it drops to or below zero; when the pool is exhausted return the fallback
(the source uses pool.back there). -/
def pickWalk : ℚ → List ZoneEffectEntry → WeatherState → WeatherState
  | _, [], fb => fb
  | r, e :: es, fb => if r - e.weight ≤ 0 then e.state else pickWalk (r - e.weight) es fb

/-- Eligible pool of WeightedPick: entries of positive weight, excluding the
over-repeated last pick once the repeat ceiling is reached. -/
def eligiblePool (cfg : ZoneDaypartConfig) (rpt : RepeatState) (repeatMax : Nat) :
    List ZoneEffectEntry :=
  cfg.entries.filter fun e =>
    decide (0 < e.weight) && !(decide (repeatMax ≤ rpt.repeats) && decide (e.state = rpt.lastPicked))

/-- WeightedPick: roulette-wheel selection over the eligible pool using one
uniform draw u in [0,1]; an empty pool keeps the last picked state. -/
def WeightedPick (cfg : ZoneDaypartConfig) (rpt : RepeatState) (repeatMax : Nat) (u : ℚ) :
    WeatherState :=
  let pool := eligiblePool cfg rpt repeatMax
  if pool.isEmpty then rpt.lastPicked
  else
    let sum := (pool.map fun it => it.weight).sum
    let fb := match pool.getLast? with
      | some l => l.state
      | none => rpt.lastPicked
    pickWalk (u * sum) pool fb

/-- FindEntry: first candidate of the list with the given state. -/
def FindEntry (cfg : ZoneDaypartConfig) (st : WeatherState) : Option ZoneEffectEntry :=
  cfg.entries.find? fun e => decide (e.state = st)

/-- Repeat tracking update at the end of PlanNewEffect: increment on a
repeated pick, otherwise restart the counter at one. -/
def BumpRepeat (rpt : RepeatState) (pick : WeatherState) : RepeatState :=
  if pick = rpt.lastPicked then { rpt with repeats := rpt.repeats + 1 }
  else ⟨pick, 1⟩

/-- Epsilon used by PlanNewEffect for apex comparisons (kEps). -/
def kEps : ℚ := 1/10000

/-- Draws consumed by one PlanNewEffect invocation: the RandUnit value for
WeightedPick, the RandUnit value for the apex percent roll, one
RandDuration result for the fade step timer and one for the dwell timer. -/
structure PlanDraws where
  pickU : ℚ := 0
  pctU : ℚ := 0
  stepDurMs : Nat := 0
  dwellDurMs : Nat := 0
deriving DecidableEq

/-- PlanNewEffect: the Transition Planner. Resolves the daypart config,
weighted-picks a next state, rolls the apex, and sets up one of the four
transition cases (first run, same state up, same state down, different
state). Returns the updated runtime and the list of sink pushes. -/
def PlanNewEffect (env : Env) (dp : DayPart) (d : PlanDraws) (rt : ZoneRuntime) :
    ZoneRuntime × List Push :=
  match env.zoneModel dp rt.zoneId with
  | none => ({ rt with phase := Phase.Idle }, [])
  | some cfg =>
    if cfg.HasAnyActive = false then ({ rt with phase := Phase.Idle }, [])
    else
      let pick := WeightedPick cfg rt.rpt env.repeatMax d.pickU
      match FindEntry cfg pick with
      | none => ({ rt with phase := Phase.Idle }, [])
      | some entry =>
        let pct01 := min 1 (max 0 ((entry.minPct + (entry.maxPct - entry.minPct) * d.pctU) / 100))
        let apex := MapPercentToRawGrade env dp pick pct01
        let newRange := GetRange env dp pick
        let curRange := GetRange env dp rt.currentState
        let rt := { rt with nextState := pick, apexTarget := apex, fadeInStart := newRange.min }
        if rt.initialized = false then
          let rt := { rt with currentState := pick,
                              currentGrade := ClampToCoreBounds newRange.min }
          let push := PushWeatherToClient rt.zoneId rt.currentState rt.currentGrade
          let inDelta := max 0 (rt.apexTarget - rt.currentGrade)
          let fis : ℤ := if inDelta ≤ 0 then 0 else ⌈inDelta / env.fadeStepValue⌉
          let rt := { rt with fadeOutStepsLeft := 0, fadeInStepsLeft := fis }
          let rt :=
            if 0 < fis then
              { rt with phase := Phase.FadeIn, stepRemainingMs := d.stepDurMs }
            else
              { rt with phase := Phase.Dwell, phaseRemainingMs := d.dwellDurMs }
          ({ rt with rpt := ⟨pick, 1⟩, initialized := true }, [push])
        else
          if pick = rt.currentState ∧ rt.currentGrade + kEps < rt.apexTarget then
            let inDelta := max 0 (rt.apexTarget - max rt.currentGrade newRange.min)
            let fis : ℤ := if inDelta ≤ 0 then 0 else ⌈inDelta / env.fadeStepValue⌉
            let rt := { rt with fadeOutStepsLeft := 0, fadeInStepsLeft := fis }
            let rt :=
              if 0 < fis then
                { rt with phase := Phase.FadeIn, stepRemainingMs := d.stepDurMs }
              else
                { rt with phase := Phase.Dwell, phaseRemainingMs := d.dwellDurMs }
            ({ rt with rpt := BumpRepeat rt.rpt pick }, [])
          else if pick = rt.currentState ∧ rt.apexTarget < rt.currentGrade - kEps then
            let rt := { rt with fadeOutStart := rt.currentGrade, fadeOutTarget := rt.apexTarget }
            let outDelta := max 0 (rt.fadeOutStart - rt.fadeOutTarget)
            let fos : ℤ := if outDelta ≤ 0 then 0 else ⌈outDelta / env.fadeStepValue⌉
            let rt := { rt with fadeOutStepsLeft := fos, fadeInStepsLeft := 0 }
            let rt :=
              if 0 < fos then
                { rt with phase := Phase.FadeOut, stepRemainingMs := d.stepDurMs }
              else
                { rt with phase := Phase.Dwell, phaseRemainingMs := d.dwellDurMs }
            ({ rt with rpt := BumpRepeat rt.rpt pick }, [])
          else
            let rt := { rt with fadeOutStart := curRange.max, fadeOutTarget := newRange.min }
            let outDelta := max 0 (rt.fadeOutStart - rt.fadeOutTarget)
            let fos : ℤ := if outDelta ≤ 0 then 0 else ⌈outDelta / env.fadeStepValue⌉
            let inDelta := max 0 (rt.apexTarget - newRange.min)
            let fis : ℤ := if inDelta ≤ 0 then 0 else ⌈inDelta / env.fadeStepValue⌉
            let rt := { rt with fadeOutStepsLeft := fos, fadeInStepsLeft := fis }
            let rt :=
              if 0 < fos then
                { rt with phase := Phase.FadeOut, stepRemainingMs := d.stepDurMs }
              else if 0 < fis then
                { rt with phase := Phase.FadeIn, stepRemainingMs := d.stepDurMs }
              else
                { rt with phase := Phase.Dwell, phaseRemainingMs := d.dwellDurMs }
            ({ rt with rpt := BumpRepeat rt.rpt pick }, [])

/-- Draws consumed by one fade executor invocation: up to two RandDuration
results for step pacing and one for the dwell timer. -/
structure FadeDraws where
  stepDurMs : Nat := 0
  stepDurMs2 : Nat := 0
  dwellDurMs : Nat := 0
deriving DecidableEq

/-- AdvanceFadeOut: one fade-out step. With no steps left it cascades into
FadeIn (flipping to the new state at its band minimum) or Dwell; otherwise
it lowers the current grade by one step toward the target, pushes the old
state, and cascades if the counter reaches zero. -/
def AdvanceFadeOut (env : Env) (d : FadeDraws) (rt : ZoneRuntime) : ZoneRuntime × List Push :=
  if rt.fadeOutStepsLeft ≤ 0 then
    if 0 < rt.fadeInStepsLeft then
      let rt := { rt with currentState := rt.nextState,
                          currentGrade := ClampToCoreBounds rt.fadeInStart }
      let push := PushWeatherToClient rt.zoneId rt.currentState rt.currentGrade
      ({ rt with phase := Phase.FadeIn, stepRemainingMs := d.stepDurMs }, [push])
    else
      ({ rt with phase := Phase.Dwell, stepRemainingMs := 0 }, [])
  else
    let next := max rt.fadeOutTarget (rt.currentGrade - env.fadeStepValue)
    let rt := { rt with currentGrade := ClampToCoreBounds next }
    let push1 := PushWeatherToClient rt.zoneId rt.currentState rt.currentGrade
    let rt := { rt with fadeOutStepsLeft := rt.fadeOutStepsLeft - 1,
                        stepRemainingMs := d.stepDurMs }
    if rt.fadeOutStepsLeft ≤ 0 then
      if 0 < rt.fadeInStepsLeft then
        let rt := { rt with currentState := rt.nextState,
                            currentGrade := ClampToCoreBounds rt.fadeInStart }
        let push2 := PushWeatherToClient rt.zoneId rt.currentState rt.currentGrade
        ({ rt with phase := Phase.FadeIn, stepRemainingMs := d.stepDurMs2 }, [push1, push2])
      else
        ({ rt with phase := Phase.Dwell, stepRemainingMs := 0 }, [push1])
    else
      (rt, [push1])

/-- AdvanceFadeIn: one fade-in step. A non-positive counter returns without
any effect (the source early-return). Otherwise raise the grade by one step
from max(current, fadeInStart) capped at the apex, push, and on reaching
zero snap to the apex, push again and enter Dwell with a dwell duration
from the candidate (or a 5000 ms default when the entry is gone). -/
def AdvanceFadeIn (env : Env) (dp : DayPart) (d : FadeDraws) (rt : ZoneRuntime) :
    ZoneRuntime × List Push :=
  if rt.fadeInStepsLeft ≤ 0 then
    (rt, [])
  else
    let base := max rt.currentGrade rt.fadeInStart
    let next := min rt.apexTarget (base + env.fadeStepValue)
    let rt := { rt with currentGrade := ClampToCoreBounds next }
    let push1 := PushWeatherToClient rt.zoneId rt.currentState rt.currentGrade
    let rt := { rt with fadeInStepsLeft := rt.fadeInStepsLeft - 1 }
    let rt := { rt with stepRemainingMs := if 0 < rt.fadeInStepsLeft then d.stepDurMs else 0 }
    if rt.fadeInStepsLeft ≤ 0 then
      let rt := { rt with currentGrade := ClampToCoreBounds rt.apexTarget }
      let push2 := PushWeatherToClient rt.zoneId rt.currentState rt.currentGrade
      let dwell :=
        match (env.zoneModel dp rt.zoneId).bind fun cfg => FindEntry cfg rt.currentState with
        | some _ => d.dwellDurMs
        | none => 5000
      ({ rt with phaseRemainingMs := dwell, phase := Phase.Dwell }, [push1, push2])
    else
      (rt, [push1])

/-- AdvanceDwell: count the dwell down by the elapsed interval; on expiry
clamp to zero and replan through PlanNewEffect. -/
def AdvanceDwell (env : Env) (dp : DayPart) (d : PlanDraws) (rt : ZoneRuntime) (diffMs : Nat) :
    ZoneRuntime × List Push :=
  if diffMs < rt.phaseRemainingMs then
    ({ rt with phaseRemainingMs := rt.phaseRemainingMs - diffMs }, [])
  else
    PlanNewEffect env dp d { rt with phaseRemainingMs := 0 }

/-- ResetRepeatsOnContextChange: on a daypart change reset the repeat state
to (WEATHER_STATE_FINE, 0). -/
def ResetRepeatsOnContextChange (rt : ZoneRuntime) (oldDp newDp : DayPart) : ZoneRuntime :=
  if oldDp ≠ newDp then { rt with rpt := ⟨WEATHER_STATE_FINE, 0⟩ } else rt

/-- Draw bundle for one catch-up loop iteration. -/
structure TickDraws where
  plan : PlanDraws := {}
  fade : FadeDraws := {}
deriving DecidableEq

/-- Phase dispatch of the scheduler inner loop: Idle plans, FadeOut and
FadeIn advance only when the step timer has expired, Dwell counts down by
the interval. -/
def DispatchPhase (env : Env) (dp : DayPart) (td : TickDraws) (rt : ZoneRuntime)
    (intervalMs : Nat) : ZoneRuntime × List Push :=
  match rt.phase with
  | Phase.Idle => PlanNewEffect env dp td.plan rt
  | Phase.FadeOut => if rt.stepRemainingMs = 0 then AdvanceFadeOut env td.fade rt else (rt, [])
  | Phase.FadeIn =>
      if rt.stepRemainingMs = 0 then AdvanceFadeIn env dp td.fade rt else (rt, [])
  | Phase.Dwell => AdvanceDwell env dp td.plan rt intervalMs

/-- The scheduling interval in milliseconds: g_IntervalSec converted, with
zero coerced to one second as in SchedulerUpdate. -/
def intervalMsOf (env : Env) : Nat :=
  if env.intervalSec * 1000 = 0 then 1000 else env.intervalSec * 1000

/-- Body of the per-zone catch-up loop of SchedulerUpdate: while the
accumulator holds at least one interval, consume it, age the fade step
timer and dispatch by phase; the accumulator is written back on exit. The
fuel argument only bounds the iteration count: every iteration removes one
interval of at least one millisecond from the accumulator, so a fuel above
the accumulator is never exhausted. -/
def CatchUpGo (env : Env) (dp : DayPart) (draws : Nat → TickDraws) :
    Nat → Nat → Nat → ZoneRuntime → ZoneRuntime × List Push
  | 0, _, acc, rt => ({ rt with msAccumulator := acc }, [])
  | fuel + 1, k, acc, rt =>
    if intervalMsOf env ≤ acc then
      let i := intervalMsOf env
      let rt := { rt with stepRemainingMs :=
        if i < rt.stepRemainingMs then rt.stepRemainingMs - i else 0 }
      let step := DispatchPhase env dp (draws k) rt i
      let rest := CatchUpGo env dp draws fuel (k + 1) (acc - i) step.1
      (rest.1, step.2 ++ rest.2)
    else
      ({ rt with msAccumulator := acc }, [])

/-- The per-zone catch-up loop of SchedulerUpdate, with adequate fuel. -/
def CatchUpLoop (env : Env) (dp : DayPart) (draws : Nat → TickDraws) (k : Nat) (acc : Nat)
    (rt : ZoneRuntime) : ZoneRuntime × List Push :=
  CatchUpGo env dp draws (acc + 1) k acc rt

/-- The per-zone body of SchedulerUpdate after the stagger gate: reset the
repeat state on a daypart change, accumulate the tick delta and run the
catch-up loop. -/
def SchedulerZoneAfterStagger (env : Env) (oldDp newDp : DayPart) (draws : Nat → TickDraws)
    (rt : ZoneRuntime) (diffMs : Nat) : ZoneRuntime × List Push :=
  let rt := ResetRepeatsOnContextChange rt oldDp newDp
  CatchUpLoop env newDp draws 0 (rt.msAccumulator + diffMs) rt

/-- One full per-zone SchedulerUpdate step: consume stagger offset first
and skip the rest of the tick while any offset remains. -/
def SchedulerZoneStep (env : Env) (oldDp newDp : DayPart) (draws : Nat → TickDraws)
    (rt : ZoneRuntime) (diffMs : Nat) : ZoneRuntime × List Push :=
  if 0 < rt.zoneOffsetMs then
    let consume := min rt.zoneOffsetMs diffMs
    let rt := { rt with zoneOffsetMs := rt.zoneOffsetMs - consume }
    if 0 < rt.zoneOffsetMs then (rt, [])
    else SchedulerZoneAfterStagger env oldDp newDp draws rt diffMs
  else SchedulerZoneAfterStagger env oldDp newDp draws rt diffMs

/-- Fresh runtime as seeded by LoadZoneModels: default fields with the zone
id and the rolled stagger offset. -/
def initRuntime (zid offMs : Nat) : ZoneRuntime :=
  { zoneId := zid, zoneOffsetMs := offMs }

/-- Run a list of scheduler ticks over one zone; each tick carries the
previously recorded daypart, the current daypart, its draw stream and the
elapsed delta. -/
def runTicks (env : Env) : List (DayPart × DayPart × (Nat → TickDraws) × Nat) → ZoneRuntime →
    ZoneRuntime × List Push
  | [], rt => (rt, [])
  | t :: ts, rt =>
      let step := SchedulerZoneStep env t.1 t.2.1 t.2.2.1 rt t.2.2.2
      let rest := runTicks env ts step.1
      (rest.1, step.2 ++ rest.2)

/-- Iterate AdvanceFadeOut a fixed number of times, collecting pushes. -/
def iterFadeOut (env : Env) (d : FadeDraws) : Nat → ZoneRuntime → ZoneRuntime × List Push
  | 0, rt => (rt, [])
  | n + 1, rt =>
      let step := AdvanceFadeOut env d rt
      let rest := iterFadeOut env d n step.1
      (rest.1, step.2 ++ rest.2)

/-- Iterate AdvanceFadeIn a fixed number of times, collecting pushes. -/
def iterFadeIn (env : Env) (dp : DayPart) (d : FadeDraws) :
    Nat → ZoneRuntime → ZoneRuntime × List Push
  | 0, rt => (rt, [])
  | n + 1, rt =>
      let step := AdvanceFadeIn env dp d rt
      let rest := iterFadeIn env dp d n step.1
      (rest.1, step.2 ++ rest.2)

/-- Zone runtime states reachable by the engine: freshly seeded runtimes,
the startup PlanNewEffect pass, and arbitrary SchedulerUpdate ticks. -/
inductive Reachable (env : Env) : ZoneRuntime → Prop where
  | seed (zid offMs : Nat) : Reachable env (initRuntime zid offMs)
  | plan (rt : ZoneRuntime) (dp : DayPart) (d : PlanDraws) :
      Reachable env rt → Reachable env (PlanNewEffect env dp d rt).1
  | tick (rt : ZoneRuntime) (oldDp newDp : DayPart) (draws : Nat → TickDraws) (diffMs : Nat) :
      Reachable env rt →
      Reachable env (SchedulerZoneStep env oldDp newDp draws rt diffMs).1

/-- Default engine globals (all knobs at their source defaults, no
configured ranges or zone models). -/
def envD : Env := {}

/-- A one-candidate config: the Fog state at weight 1, percent band
[50,50], dwell band [10,10]. -/
def cfgOneFog : ZoneDaypartConfig := ⟨[⟨1, 1, 50, 50, 10, 10⟩]⟩

/-- Environment exhibiting the skipped-fade-out transition: the Fine range
tops out below the Fog range minimum in the morning, so a Fine to Fog
transition plans zero fade-out steps. -/
def envC1 : Env :=
  { stateRanges := fun dp st =>
      match dp, st with
      | DayPart.MORNING, 0 => some ⟨3/10, 2/5⟩
      | DayPart.MORNING, 1 => some ⟨1/2, 9/10⟩
      | _, _ => none
    zoneModel := fun dp z =>
      match dp, z with
      | DayPart.MORNING, 1 => some cfgOneFog
      | _, _ => none }

/-- An initialized zone dwelling on Fine at grade 7/20. -/
def rtC1 : ZoneRuntime :=
  { zoneId := 1, phase := Phase.Dwell, currentState := WEATHER_STATE_FINE,
    currentGrade := 7/20, initialized := true, rpt := ⟨WEATHER_STATE_FINE, 1⟩ }

/-- The runtime planned for rtC1: a Fine to Fog transition with zero
fade-out steps and four fade-in steps. -/
def rtC1' : ZoneRuntime := (PlanNewEffect envC1 DayPart.MORNING {} rtC1).1

/-- Expected value of rtC1': phase FadeIn with the current state still
Fine while the pending state is Fog. -/
def rtC1e : ZoneRuntime :=
  { rtC1 with
    nextState := 1
    apexTarget := 7/10
    fadeInStart := 1/2
    fadeOutStart := 2/5
    fadeOutTarget := 1/2
    fadeOutStepsLeft := 0
    fadeInStepsLeft := 4
    phase := Phase.FadeIn
    stepRemainingMs := 0
    rpt := ⟨1, 1⟩ }

/-- A zone still holding 5000 ms of stagger offset, with five recorded
repeats, used against the bucket-reset claim. -/
def rtC2 : ZoneRuntime :=
  { zoneId := 7, zoneOffsetMs := 5000, phase := Phase.Dwell, rpt := ⟨3, 5⟩ }

/-- A zone whose stagger offset of 500 ms is consumed inside the tick. -/
def rtC2w : ZoneRuntime :=
  { zoneId := 7, zoneOffsetMs := 500, phase := Phase.Dwell, rpt := ⟨3, 5⟩ }

/-- Environment where Fine and Fog share the range [3/10, 9/10] in the
morning, so a Fine to Fog transition plans a long fade-out. -/
def envC3 : Env :=
  { stateRanges := fun dp st =>
      match dp, st with
      | DayPart.MORNING, 0 => some ⟨3/10, 9/10⟩
      | DayPart.MORNING, 1 => some ⟨3/10, 9/10⟩
      | _, _ => none
    zoneModel := fun dp z =>
      match dp, z with
      | DayPart.MORNING, 1 => some cfgOneFog
      | _, _ => none }

/-- An initialized zone dwelling on Fine at grade 1/2, well below the
Fine band maximum of 9/10. -/
def rtC3 : ZoneRuntime :=
  { zoneId := 1, phase := Phase.Dwell, currentState := WEATHER_STATE_FINE,
    currentGrade := 1/2, initialized := true, rpt := ⟨WEATHER_STATE_FINE, 1⟩ }

/-- The runtime planned for rtC3: a Fine to Fog transition in FadeOut. -/
def rtC3' : ZoneRuntime := (PlanNewEffect envC3 DayPart.MORNING {} rtC3).1

/-- Expected value of rtC3': twelve fade-out steps from the recorded band
maximum 9/10 down to 3/10, while the zone still holds grade 1/2. -/
def rtC3e : ZoneRuntime :=
  { rtC3 with
    nextState := 1
    apexTarget := 3/5
    fadeInStart := 3/10
    fadeOutStart := 9/10
    fadeOutTarget := 3/10
    fadeOutStepsLeft := 12
    fadeInStepsLeft := 6
    phase := Phase.FadeOut
    stepRemainingMs := 0
    rpt := ⟨1, 1⟩ }

/-- A one-candidate config picking Fog at percent band [0,0]. -/
def cfgZeroPctFog : ZoneDaypartConfig := ⟨[⟨1, 1, 0, 0, 10, 10⟩]⟩

/-- Environment where Fine and Fog share the range [3/10, 1/2] in the
morning; a Fine to Fog transition at percent 0 needs no fade-in. -/
def envC4A : Env :=
  { stateRanges := fun dp st =>
      match dp, st with
      | DayPart.MORNING, 0 => some ⟨3/10, 1/2⟩
      | DayPart.MORNING, 1 => some ⟨3/10, 1/2⟩
      | _, _ => none
    zoneModel := fun dp z =>
      match dp, z with
      | DayPart.MORNING, 1 => some cfgZeroPctFog
      | _, _ => none }

/-- An initialized zone holding grade 9/10, above the morning band
maximum of 1/2 (the grade was pushed under another daypart). -/
def rtC4A : ZoneRuntime :=
  { zoneId := 1, phase := Phase.Dwell, currentState := WEATHER_STATE_FINE,
    currentGrade := 9/10, initialized := true, rpt := ⟨WEATHER_STATE_FINE, 1⟩ }

/-- The runtime planned for rtC4A: four fade-out steps toward 3/10. -/
def rtC4A' : ZoneRuntime := (PlanNewEffect envC4A DayPart.MORNING {} rtC4A).1

/-- Expected value of rtC4A'. -/
def rtC4Ae : ZoneRuntime :=
  { rtC4A with
    nextState := 1
    apexTarget := 3/10
    fadeInStart := 3/10
    fadeOutStart := 1/2
    fadeOutTarget := 3/10
    fadeOutStepsLeft := 4
    fadeInStepsLeft := 0
    phase := Phase.FadeOut
    stepRemainingMs := 0
    rpt := ⟨1, 1⟩ }

/-- A one-candidate config picking Fog at percent band [100,100]. -/
def cfgFullFog : ZoneDaypartConfig := ⟨[⟨1, 1, 100, 100, 10, 10⟩]⟩

/-- Environment where the Fog morning range is [19/20, 1]; at percent 100
the apex lands exactly on 1. -/
def envC4B : Env :=
  { stateRanges := fun dp st =>
      match dp, st with
      | DayPart.MORNING, 1 => some ⟨19/20, 1⟩
      | _, _ => none
    zoneModel := fun dp z =>
      match dp, z with
      | DayPart.MORNING, 1 => some cfgFullFog
      | _, _ => none }

/-- First-run planned runtime in envC4B with the percent draw at 1: one
fade-in step toward an apex of exactly 1. -/
def rtC4B' : ZoneRuntime :=
  (PlanNewEffect envC4B DayPart.MORNING { pctU := 1 } (initRuntime 1 0)).1

/-- Expected value of rtC4B'. -/
def rtC4Be : ZoneRuntime :=
  { zoneId := 1
    phase := Phase.FadeIn
    currentState := 1
    currentGrade := 19/20
    fadeInStepsLeft := 1
    fadeInStart := 19/20
    apexTarget := 1
    nextState := 1
    rpt := ⟨1, 1⟩
    initialized := true }

/-- A planned pure fade-out state used for the amended convergence
property: four steps from 1/2 down to 3/10. -/
def rtOutW : ZoneRuntime :=
  { phase := Phase.FadeOut, fadeOutStepsLeft := 4, fadeOutStart := 1/2,
    fadeOutTarget := 3/10, currentGrade := 1/2, fadeInStepsLeft := 0 }

/-- A planned fade-in state used for the amended convergence property:
seven steps from 3/10 up to 13/20. -/
def rtInW : ZoneRuntime :=
  { phase := Phase.FadeIn, fadeInStepsLeft := 7, fadeInStart := 3/10,
    currentGrade := 3/10, apexTarget := 13/20 }

/-- A two-candidate config (Fine and Fog, both weight 1). -/
def cfgC5 : ZoneDaypartConfig := ⟨[⟨0, 1, 0, 0, 0, 0⟩, ⟨1, 1, 0, 0, 0, 0⟩]⟩

/-- A one-candidate config whose only weighted state is Fine. -/
def cfgC5b : ZoneDaypartConfig := ⟨[⟨0, 1, 0, 0, 0, 0⟩]⟩

/-- Environment with a single Fog candidate for zone 1 in the morning and
no configured ranges (all defaults). -/
def envW : Env :=
  { zoneModel := fun dp z =>
      match dp, z with
      | DayPart.MORNING, 1 => some cfgOneFog
      | _, _ => none }

/-- First-run planned runtime in envW: FadeIn with seven steps. -/
def rtW : ZoneRuntime := (PlanNewEffect envW DayPart.MORNING {} (initRuntime 1 0)).1

/-- Expected value of rtW. -/
def rtWe : ZoneRuntime :=
  { zoneId := 1
    phase := Phase.FadeIn
    currentState := 1
    currentGrade := 3/10
    fadeInStepsLeft := 7
    fadeInStart := 3/10
    apexTarget := 13/20
    nextState := 1
    rpt := ⟨1, 1⟩
    initialized := true }

/-- The fade-in safety invariant: a zone in phase FadeIn always holds a
fade-in step counter of at least one. -/
def FadeInInv (rt : ZoneRuntime) : Prop :=
  rt.phase = Phase.FadeIn → 1 ≤ rt.fadeInStepsLeft

/-! ## Helper lemmas -/

theorem clamp_eq_self {g : ℚ} (h0 : 0 ≤ g) (h1 : g < 1) : ClampToCoreBounds g = g := by
  unfold ClampToCoreBounds
  rw [if_neg (not_lt.mpr h0), if_neg (not_le.mpr h1)]

theorem max_sub_shift (t b c : ℚ) (hc : 0 ≤ c) : max t (max t b - c) = max t (b - c) := by
  rcases le_total t b with h | h
  · rw [max_eq_right h]
  · rw [max_eq_left h, max_eq_left (by linarith), max_eq_left (by linarith)]

theorem min_add_shift (a b c : ℚ) (hc : 0 ≤ c) : min a (min a b + c) = min a (b + c) := by
  rcases le_total b a with h | h
  · rw [min_eq_right h]
  · rw [min_eq_left h, min_eq_left (le_add_of_nonneg_right hc),
      min_eq_left (by linarith)]

theorem pickWalk_mem (r : ℚ) (pool : List ZoneEffectEntry) (fb : WeatherState) :
    pickWalk r pool fb = fb ∨ pickWalk r pool fb ∈ pool.map ZoneEffectEntry.state := by
  induction pool generalizing r with
  | nil => exact Or.inl rfl
  | cons e es ih =>
    unfold pickWalk
    split
    · exact Or.inr (List.mem_map_of_mem _ (List.mem_cons_self e es))
    · rcases ih (r - e.weight) with h | h
      · exact Or.inl h
      · exact Or.inr (by rw [List.map_cons]; exact List.mem_cons_of_mem _ h)

theorem PlanNewEffect_zoneOffset (env : Env) (dp : DayPart) (d : PlanDraws) (rt : ZoneRuntime) :
    (PlanNewEffect env dp d rt).1.zoneOffsetMs = rt.zoneOffsetMs := by
  unfold PlanNewEffect
  repeat' first
  | rfl
  | split
  | dsimp only

theorem AdvanceFadeOut_zoneOffset (env : Env) (d : FadeDraws) (rt : ZoneRuntime) :
    (AdvanceFadeOut env d rt).1.zoneOffsetMs = rt.zoneOffsetMs := by
  unfold AdvanceFadeOut
  repeat' first
  | rfl
  | split
  | dsimp only

theorem AdvanceFadeIn_zoneOffset (env : Env) (dp : DayPart) (d : FadeDraws) (rt : ZoneRuntime) :
    (AdvanceFadeIn env dp d rt).1.zoneOffsetMs = rt.zoneOffsetMs := by
  unfold AdvanceFadeIn
  repeat' first
  | rfl
  | split
  | dsimp only

theorem AdvanceDwell_zoneOffset (env : Env) (dp : DayPart) (d : PlanDraws) (rt : ZoneRuntime)
    (diffMs : Nat) : (AdvanceDwell env dp d rt diffMs).1.zoneOffsetMs = rt.zoneOffsetMs := by
  unfold AdvanceDwell
  split
  · rfl
  · exact PlanNewEffect_zoneOffset env dp d _

theorem DispatchPhase_zoneOffset (env : Env) (dp : DayPart) (td : TickDraws) (rt : ZoneRuntime)
    (intervalMs : Nat) : (DispatchPhase env dp td rt intervalMs).1.zoneOffsetMs = rt.zoneOffsetMs := by
  unfold DispatchPhase
  split
  · exact PlanNewEffect_zoneOffset env dp td.plan rt
  · split
    · exact AdvanceFadeOut_zoneOffset env td.fade rt
    · rfl
  · split
    · exact AdvanceFadeIn_zoneOffset env dp td.fade rt
    · rfl
  · exact AdvanceDwell_zoneOffset env dp td.plan rt intervalMs

theorem CatchUpGo_zoneOffset (env : Env) (dp : DayPart) (draws : Nat → TickDraws)
    (fuel k acc : Nat) (rt : ZoneRuntime) :
    (CatchUpGo env dp draws fuel k acc rt).1.zoneOffsetMs = rt.zoneOffsetMs := by
  induction fuel generalizing k acc rt with
  | zero => rfl
  | succ fuel ih =>
    unfold CatchUpGo
    split
    · rw [ih]
      exact DispatchPhase_zoneOffset env dp (draws k) _ _
    · rfl

theorem PlanNewEffect_inv (env : Env) (dp : DayPart) (d : PlanDraws) (rt : ZoneRuntime) :
    FadeInInv (PlanNewEffect env dp d rt).1 := by
  unfold PlanNewEffect FadeInInv
  repeat' first
  | split
  | dsimp only
  all_goals intro hph
  all_goals first
  | omega
  | simp at hph

theorem AdvanceFadeOut_inv (env : Env) (d : FadeDraws) (rt : ZoneRuntime)
    (hinv : FadeInInv rt) : FadeInInv (AdvanceFadeOut env d rt).1 := by
  unfold AdvanceFadeOut FadeInInv
  repeat' first
  | split
  | dsimp only
  all_goals intro hph
  all_goals first
  | omega
  | simp at hph
  | exact hinv hph

theorem AdvanceFadeIn_inv (env : Env) (dp : DayPart) (d : FadeDraws) (rt : ZoneRuntime)
    (hinv : FadeInInv rt) : FadeInInv (AdvanceFadeIn env dp d rt).1 := by
  unfold AdvanceFadeIn FadeInInv
  repeat' first
  | split
  | dsimp only
  all_goals intro hph
  all_goals first
  | omega
  | simp at hph
  | exact hinv hph

theorem AdvanceDwell_inv (env : Env) (dp : DayPart) (d : PlanDraws) (rt : ZoneRuntime)
    (diffMs : Nat) (hinv : FadeInInv rt) : FadeInInv (AdvanceDwell env dp d rt diffMs).1 := by
  unfold AdvanceDwell
  split
  · exact fun hph => hinv hph
  · exact PlanNewEffect_inv env dp d _

theorem ResetRepeats_inv (rt : ZoneRuntime) (oldDp newDp : DayPart) (hinv : FadeInInv rt) :
    FadeInInv (ResetRepeatsOnContextChange rt oldDp newDp) := by
  unfold ResetRepeatsOnContextChange
  split
  · exact fun hph => hinv hph
  · exact hinv

theorem DispatchPhase_inv (env : Env) (dp : DayPart) (td : TickDraws) (rt : ZoneRuntime)
    (intervalMs : Nat) (hinv : FadeInInv rt) :
    FadeInInv (DispatchPhase env dp td rt intervalMs).1 := by
  unfold DispatchPhase
  split
  · exact PlanNewEffect_inv env dp td.plan rt
  · split
    · exact AdvanceFadeOut_inv env td.fade rt hinv
    · exact hinv
  · split
    · exact AdvanceFadeIn_inv env dp td.fade rt hinv
    · exact hinv
  · exact AdvanceDwell_inv env dp td.plan rt intervalMs hinv

theorem CatchUpGo_inv (env : Env) (dp : DayPart) (draws : Nat → TickDraws)
    (fuel k acc : Nat) (rt : ZoneRuntime) (hinv : FadeInInv rt) :
    FadeInInv (CatchUpGo env dp draws fuel k acc rt).1 := by
  induction fuel generalizing k acc rt with
  | zero => exact fun hph => hinv hph
  | succ fuel ih =>
    unfold CatchUpGo
    split
    · exact ih _ _ _ (DispatchPhase_inv env dp (draws k) _ _ (fun hph => hinv hph))
    · exact fun hph => hinv hph

theorem SchedulerZoneAfterStagger_inv (env : Env) (oldDp newDp : DayPart)
    (draws : Nat → TickDraws) (rt : ZoneRuntime) (diffMs : Nat) (hinv : FadeInInv rt) :
    FadeInInv (SchedulerZoneAfterStagger env oldDp newDp draws rt diffMs).1 := by
  unfold SchedulerZoneAfterStagger CatchUpLoop
  exact CatchUpGo_inv env newDp draws _ _ _ _ (ResetRepeats_inv _ oldDp newDp hinv)

theorem SchedulerZoneStep_inv (env : Env) (oldDp newDp : DayPart) (draws : Nat → TickDraws)
    (rt : ZoneRuntime) (diffMs : Nat) (hinv : FadeInInv rt) :
    FadeInInv (SchedulerZoneStep env oldDp newDp draws rt diffMs).1 := by
  unfold SchedulerZoneStep
  split
  · dsimp only
    split
    · exact fun hph => hinv hph
    · exact SchedulerZoneAfterStagger_inv env oldDp newDp draws _ diffMs (fun hph => hinv hph)
  · exact SchedulerZoneAfterStagger_inv env oldDp newDp draws rt diffMs hinv

theorem Reachable_inv (env : Env) (rt : ZoneRuntime) (h : Reachable env rt) : FadeInInv rt := by
  induction h with
  | seed zid offMs => exact fun hph => by simp [initRuntime] at hph
  | plan rt dp d _ _ => exact PlanNewEffect_inv env dp d rt
  | tick rt oldDp newDp draws diffMs _ ih =>
      exact SchedulerZoneStep_inv env oldDp newDp draws rt diffMs ih

theorem intervalMsOf_pos (env : Env) : 0 < intervalMsOf env := by
  unfold intervalMsOf
  split
  · omega
  · omega

theorem CatchUpGo_msAccumulator (env : Env) (dp : DayPart) (draws : Nat → TickDraws)
    (fuel : Nat) : ∀ (k acc : Nat) (rt : ZoneRuntime), acc < fuel →
    (CatchUpGo env dp draws fuel k acc rt).1.msAccumulator = acc % intervalMsOf env := by
  induction fuel with
  | zero => exact fun k acc rt hfuel => absurd hfuel (by omega)
  | succ fuel ih =>
    intro k acc rt hfuel
    have hpos := intervalMsOf_pos env
    unfold CatchUpGo
    split
    · rename_i h
      dsimp only
      rw [ih _ _ _ (by omega)]
      exact (Nat.mod_eq_sub_mod h).symm
    · rename_i h
      dsimp only
      exact (Nat.mod_eq_of_lt (by omega)).symm

theorem AdvanceFadeOut_step (env : Env) (d : FadeDraws) (rt : ZoneRuntime)
    (hstep : 0 < env.fadeStepValue)
    (hfos : 0 < rt.fadeOutStepsLeft) (hfis : rt.fadeInStepsLeft ≤ 0)
    (h0 : 0 ≤ rt.fadeOutTarget) (h1 : rt.fadeOutTarget < 1) (hg : rt.currentGrade < 1) :
    ∃ srm ph,
      AdvanceFadeOut env d rt =
        ({ rt with
            currentGrade := max rt.fadeOutTarget (rt.currentGrade - env.fadeStepValue),
            fadeOutStepsLeft := rt.fadeOutStepsLeft - 1,
            stepRemainingMs := srm, phase := ph },
          [⟨rt.zoneId, rt.currentState,
            max rt.fadeOutTarget (rt.currentGrade - env.fadeStepValue)⟩]) := by
  have hv0 : (0:ℚ) ≤ max rt.fadeOutTarget (rt.currentGrade - env.fadeStepValue) :=
    le_trans h0 (le_max_left _ _)
  have hv1 : max rt.fadeOutTarget (rt.currentGrade - env.fadeStepValue) < 1 :=
    max_lt h1 (by linarith)
  have hcl := clamp_eq_self hv0 hv1
  by_cases hn : rt.fadeOutStepsLeft - 1 ≤ 0
  · refine ⟨0, Phase.Dwell, ?_⟩
    unfold AdvanceFadeOut PushWeatherToClient
    rw [if_neg (by omega)]
    dsimp only
    rw [if_pos hn, if_neg (by omega)]
    simp only [hcl]
  · refine ⟨d.stepDurMs, rt.phase, ?_⟩
    unfold AdvanceFadeOut PushWeatherToClient
    rw [if_neg (by omega)]
    dsimp only
    rw [if_neg hn]
    simp only [hcl]

theorem AdvanceFadeIn_stepMid (env : Env) (dp : DayPart) (d : FadeDraws) (rt : ZoneRuntime)
    (hstep : 0 < env.fadeStepValue) (hfis : 2 ≤ rt.fadeInStepsLeft)
    (h0 : 0 ≤ rt.fadeInStart) (h1 : rt.fadeInStart ≤ rt.apexTarget) (h2 : rt.apexTarget < 1) :
    AdvanceFadeIn env dp d rt =
      ({ rt with
          currentGrade := min rt.apexTarget (max rt.currentGrade rt.fadeInStart + env.fadeStepValue),
          fadeInStepsLeft := rt.fadeInStepsLeft - 1,
          stepRemainingMs := d.stepDurMs },
        [⟨rt.zoneId, rt.currentState,
          min rt.apexTarget (max rt.currentGrade rt.fadeInStart + env.fadeStepValue)⟩]) := by
  have hv0 : (0:ℚ) ≤ min rt.apexTarget (max rt.currentGrade rt.fadeInStart + env.fadeStepValue) :=
    le_min (le_trans h0 h1) (by
      have := le_max_right rt.currentGrade rt.fadeInStart
      linarith)
  have hv1 : min rt.apexTarget (max rt.currentGrade rt.fadeInStart + env.fadeStepValue) < 1 :=
    lt_of_le_of_lt (min_le_left _ _) h2
  have hcl := clamp_eq_self hv0 hv1
  unfold AdvanceFadeIn PushWeatherToClient
  rw [if_neg (by omega)]
  dsimp only
  rw [if_pos (by omega : (0:ℤ) < rt.fadeInStepsLeft - 1), if_neg (by omega)]
  simp only [hcl]

theorem AdvanceFadeIn_stepLast (env : Env) (dp : DayPart) (d : FadeDraws) (rt : ZoneRuntime)
    (hstep : 0 < env.fadeStepValue) (hfis : rt.fadeInStepsLeft = 1)
    (h0 : 0 ≤ rt.fadeInStart) (h1 : rt.fadeInStart ≤ rt.apexTarget) (h2 : rt.apexTarget < 1) :
    ∃ dw,
      AdvanceFadeIn env dp d rt =
        ({ rt with
            currentGrade := rt.apexTarget,
            fadeInStepsLeft := 0,
            stepRemainingMs := 0,
            phaseRemainingMs := dw,
            phase := Phase.Dwell },
          [⟨rt.zoneId, rt.currentState,
            min rt.apexTarget (max rt.currentGrade rt.fadeInStart + env.fadeStepValue)⟩,
           ⟨rt.zoneId, rt.currentState, rt.apexTarget⟩]) := by
  have hv0 : (0:ℚ) ≤ min rt.apexTarget (max rt.currentGrade rt.fadeInStart + env.fadeStepValue) :=
    le_min (le_trans h0 h1) (by
      have := le_max_right rt.currentGrade rt.fadeInStart
      linarith)
  have hv1 : min rt.apexTarget (max rt.currentGrade rt.fadeInStart + env.fadeStepValue) < 1 :=
    lt_of_le_of_lt (min_le_left _ _) h2
  have hcl := clamp_eq_self hv0 hv1
  have hcla := clamp_eq_self (le_trans h0 h1) h2
  refine ⟨(match (env.zoneModel dp rt.zoneId).bind (fun cfg => FindEntry cfg rt.currentState) with
    | some _ => d.dwellDurMs
    | none => 5000), ?_⟩
  unfold AdvanceFadeIn PushWeatherToClient
  rw [if_neg (by omega)]
  dsimp only
  rw [hfis]
  norm_num
  simp only [hcl, hcla]
  exact ⟨trivial, trivial, trivial⟩

theorem iterFadeOut_spec (env : Env) (d : FadeDraws) (hstep : 0 < env.fadeStepValue) :
    ∀ (n : Nat) (rt : ZoneRuntime),
    rt.fadeOutStepsLeft = (n : ℤ) →
    rt.fadeInStepsLeft ≤ 0 →
    0 ≤ rt.fadeOutTarget → rt.fadeOutTarget < 1 → rt.currentGrade < 1 →
    (iterFadeOut env d n rt).1.currentGrade =
        (if n = 0 then rt.currentGrade
         else max rt.fadeOutTarget (rt.currentGrade - (n : ℚ) * env.fadeStepValue)) ∧
    (iterFadeOut env d n rt).2.length = n ∧
    (∀ p ∈ (iterFadeOut env d n rt).2, rt.fadeOutTarget ≤ p.grade) ∧
    ((iterFadeOut env d n rt).2.map Push.grade).getLast? =
        (if n = 0 then none
         else some (max rt.fadeOutTarget (rt.currentGrade - (n : ℚ) * env.fadeStepValue))) := by
  intro n
  induction n with
  | zero =>
    intro rt h1 h2 h3 h4 h5
    refine ⟨by simp [iterFadeOut], by simp [iterFadeOut], ?_, by simp [iterFadeOut]⟩
    intro p hp
    simp [iterFadeOut] at hp
  | succ n ih =>
    intro rt h1 h2 h3 h4 h5
    obtain ⟨srm, ph, heq⟩ :=
      AdvanceFadeOut_step env d rt hstep (by omega) h2 h3 h4 h5
    have hisucc : iterFadeOut env d (n + 1) rt =
        ((iterFadeOut env d n (AdvanceFadeOut env d rt).1).1,
          (AdvanceFadeOut env d rt).2 ++ (iterFadeOut env d n (AdvanceFadeOut env d rt).1).2) :=
      rfl
    rw [hisucc, heq]
    dsimp only
    have hv1 : max rt.fadeOutTarget (rt.currentGrade - env.fadeStepValue) < 1 :=
      max_lt h4 (by linarith)
    obtain ⟨ihg, ihlen, ihmem, ihlast⟩ :=
      ih ({ rt with
              currentGrade := max rt.fadeOutTarget (rt.currentGrade - env.fadeStepValue),
              fadeOutStepsLeft := rt.fadeOutStepsLeft - 1,
              stepRemainingMs := srm, phase := ph })
        (by dsimp only; omega) h2 h3 h4 hv1
    dsimp only at ihg ihlen ihmem ihlast
    have hshift : ∀ c : ℚ, 0 ≤ c →
        max rt.fadeOutTarget (max rt.fadeOutTarget (rt.currentGrade - env.fadeStepValue) - c) =
        max rt.fadeOutTarget (rt.currentGrade - env.fadeStepValue - c) :=
      fun c hc => max_sub_shift rt.fadeOutTarget (rt.currentGrade - env.fadeStepValue) c hc
    refine ⟨?_, ?_, ?_, ?_⟩
    · rw [ihg]
      by_cases hn : n = 0
      · subst hn
        rw [if_pos rfl, if_neg (by omega)]
        norm_num
      · rw [if_neg hn, if_neg (by omega), hshift _ (by positivity)]
        push_cast
        ring_nf
    · simp [ihlen]
    · intro p hp
      rcases List.mem_cons.mp hp with hp | hp
      · rw [hp]
        exact le_max_left _ _
      · exact ihmem p hp
    · rcases hres : (iterFadeOut env d n
          ({ rt with
              currentGrade := max rt.fadeOutTarget (rt.currentGrade - env.fadeStepValue),
              fadeOutStepsLeft := rt.fadeOutStepsLeft - 1,
              stepRemainingMs := srm, phase := ph })).2 with _ | ⟨q, qs⟩
      · have hn0 : n = 0 := by
          rw [hres] at ihlen
          simpa using ihlen.symm
        subst hn0
        rw [if_neg (by omega)]
        simp only [List.singleton_append, List.map_cons, List.map_nil, List.getLast?_singleton]
        push_cast
        ring_nf
      · have hn : n ≠ 0 := by
          rw [hres] at ihlen
          simp at ihlen
          omega
        rw [hres, if_neg hn, List.map_cons] at ihlast
        rw [if_neg (by omega)]
        simp only [List.singleton_append, List.map_cons]
        rw [List.getLast?_cons_cons, ihlast, hshift _ (by positivity)]
        push_cast
        ring_nf

theorem iterFadeIn_spec (env : Env) (dp : DayPart) (d : FadeDraws)
    (hstep : 0 < env.fadeStepValue) :
    ∀ (m : Nat) (rt : ZoneRuntime),
    rt.fadeInStepsLeft = ((m + 1 : Nat) : ℤ) →
    0 ≤ rt.fadeInStart → rt.fadeInStart ≤ rt.apexTarget → rt.apexTarget < 1 →
    (iterFadeIn env dp d (m + 1) rt).1.currentGrade = rt.apexTarget ∧
    (iterFadeIn env dp d (m + 1) rt).2.length = m + 2 ∧
    (∀ p ∈ (iterFadeIn env dp d (m + 1) rt).2, p.grade ≤ rt.apexTarget) ∧
    ((iterFadeIn env dp d (m + 1) rt).2.map Push.grade).getLast? = some rt.apexTarget := by
  intro m
  induction m with
  | zero =>
    intro rt h1 h2 h3 h4
    obtain ⟨dw, heq⟩ := AdvanceFadeIn_stepLast env dp d rt hstep (by omega) h2 h3 h4
    have hiter : iterFadeIn env dp d 1 rt =
        ((iterFadeIn env dp d 0 (AdvanceFadeIn env dp d rt).1).1,
          (AdvanceFadeIn env dp d rt).2 ++ (iterFadeIn env dp d 0 (AdvanceFadeIn env dp d rt).1).2) :=
      rfl
    rw [hiter, heq]
    dsimp only [iterFadeIn]
    refine ⟨rfl, by simp, ?_, by simp⟩
    intro p hp
    simp only [List.append_nil, List.mem_cons, List.not_mem_nil, or_false] at hp
    rcases hp with hp | hp
    · rw [hp]
      exact min_le_left _ _
    · rw [hp]
  | succ m ih =>
    intro rt h1 h2 h3 h4
    have heq := AdvanceFadeIn_stepMid env dp d rt hstep (by omega) h2 h3 h4
    have hiter : iterFadeIn env dp d (m + 2) rt =
        ((iterFadeIn env dp d (m + 1) (AdvanceFadeIn env dp d rt).1).1,
          (AdvanceFadeIn env dp d rt).2 ++
            (iterFadeIn env dp d (m + 1) (AdvanceFadeIn env dp d rt).1).2) :=
      rfl
    rw [hiter, heq]
    dsimp only
    obtain ⟨ihg, ihlen, ihmem, ihlast⟩ :=
      ih ({ rt with
              currentGrade := min rt.apexTarget (max rt.currentGrade rt.fadeInStart + env.fadeStepValue),
              fadeInStepsLeft := rt.fadeInStepsLeft - 1,
              stepRemainingMs := d.stepDurMs })
        (by dsimp only; omega) h2 h3 h4
    dsimp only at ihg ihlen ihmem ihlast
    refine ⟨ihg, by simp [ihlen], ?_, ?_⟩
    · intro p hp
      rcases List.mem_cons.mp hp with hp | hp
      · rw [hp]
        exact min_le_left _ _
      · exact ihmem p hp
    · rcases hres : (iterFadeIn env dp d (m + 1)
          ({ rt with
              currentGrade := min rt.apexTarget (max rt.currentGrade rt.fadeInStart + env.fadeStepValue),
              fadeInStepsLeft := rt.fadeInStepsLeft - 1,
              stepRemainingMs := d.stepDurMs })).2 with _ | ⟨q, qs⟩
      · rw [hres] at ihlen
        simp at ihlen
      · rw [hres, List.map_cons] at ihlast
        simp only [List.singleton_append, List.map_cons]
        rw [List.getLast?_cons_cons, ihlast]

theorem ResetRepeats_zoneOffset (rt : ZoneRuntime) (oldDp newDp : DayPart) :
    (ResetRepeatsOnContextChange rt oldDp newDp).zoneOffsetMs = rt.zoneOffsetMs := by
  unfold ResetRepeatsOnContextChange
  split <;> rfl

theorem SchedulerZoneAfterStagger_zoneOffset (env : Env) (oldDp newDp : DayPart)
    (draws : Nat → TickDraws) (rt : ZoneRuntime) (diffMs : Nat) :
    (SchedulerZoneAfterStagger env oldDp newDp draws rt diffMs).1.zoneOffsetMs
      = rt.zoneOffsetMs := by
  unfold SchedulerZoneAfterStagger CatchUpLoop
  rw [CatchUpGo_zoneOffset, ResetRepeats_zoneOffset]

theorem SchedulerZoneStep_zoneOffset (env : Env) (oldDp newDp : DayPart)
    (draws : Nat → TickDraws) (rt : ZoneRuntime) (diffMs : Nat) :
    (SchedulerZoneStep env oldDp newDp draws rt diffMs).1.zoneOffsetMs
      = rt.zoneOffsetMs - min rt.zoneOffsetMs diffMs := by
  unfold SchedulerZoneStep
  split
  · dsimp only
    split
    · rfl
    · rw [SchedulerZoneAfterStagger_zoneOffset]
  · rename_i h
    rw [SchedulerZoneAfterStagger_zoneOffset]
    omega

theorem SchedulerZoneStep_skip (env : Env) (oldDp newDp : DayPart) (draws : Nat → TickDraws)
    (rt : ZoneRuntime) (diffMs : Nat) (h : diffMs < rt.zoneOffsetMs) :
    SchedulerZoneStep env oldDp newDp draws rt diffMs =
      ({ rt with zoneOffsetMs := rt.zoneOffsetMs - diffMs }, []) := by
  unfold SchedulerZoneStep
  rw [if_pos (by omega)]
  dsimp only
  rw [Nat.min_eq_right h.le]
  rw [if_pos (by omega)]

theorem runTicks_stagger (env : Env) :
    ∀ (ticks : List (DayPart × DayPart × (Nat → TickDraws) × Nat)) (rt : ZoneRuntime),
    (ticks.map fun t => t.2.2.2).sum < rt.zoneOffsetMs →
    runTicks env ticks rt =
      ({ rt with zoneOffsetMs := rt.zoneOffsetMs - (ticks.map fun t => t.2.2.2).sum }, []) := by
  intro ticks
  induction ticks with
  | nil =>
    intro rt h
    simp [runTicks]
  | cons t ts ih =>
    intro rt h
    rw [List.map_cons, List.sum_cons] at h
    have hstep := SchedulerZoneStep_skip env t.1 t.2.1 t.2.2.1 rt t.2.2.2 (by omega)
    have hr : runTicks env (t :: ts) rt =
        ((runTicks env ts (SchedulerZoneStep env t.1 t.2.1 t.2.2.1 rt t.2.2.2).1).1,
          (SchedulerZoneStep env t.1 t.2.1 t.2.2.1 rt t.2.2.2).2 ++
            (runTicks env ts (SchedulerZoneStep env t.1 t.2.1 t.2.2.1 rt t.2.2.2).1).2) :=
      rfl
    rw [hr, hstep]
    dsimp only
    rw [ih _ (by dsimp only; omega)]
    dsimp only
    have hsub : rt.zoneOffsetMs - t.2.2.2 - (ts.map fun t => t.2.2.2).sum
        = rt.zoneOffsetMs - ((t :: ts).map fun t => t.2.2.2).sum := by
      rw [List.map_cons, List.sum_cons]
      omega
    rw [hsub]
    simp

theorem CatchUpGo_exit (env : Env) (dp : DayPart) (draws : Nat → TickDraws)
    (fuel k acc : Nat) (rt : ZoneRuntime) (h : acc < intervalMsOf env) :
    CatchUpGo env dp draws fuel k acc rt = ({ rt with msAccumulator := acc }, []) := by
  cases fuel with
  | zero => rfl
  | succ fuel =>
    unfold CatchUpGo
    rw [if_neg (by omega)]

theorem SchedulerZoneAfterStagger_reset (env : Env) (oldDp newDp : DayPart)
    (draws : Nat → TickDraws) (rt : ZoneRuntime) (diffMs : Nat)
    (hdp : oldDp ≠ newDp) (hacc : rt.msAccumulator + diffMs < intervalMsOf env) :
    SchedulerZoneAfterStagger env oldDp newDp draws rt diffMs =
      ({ rt with rpt := ⟨WEATHER_STATE_FINE, 0⟩,
                 msAccumulator := rt.msAccumulator + diffMs }, []) := by
  unfold SchedulerZoneAfterStagger ResetRepeatsOnContextChange CatchUpLoop
  rw [if_pos hdp]
  dsimp only
  rw [CatchUpGo_exit env newDp draws _ _ _ _ (by omega)]

theorem SchedulerZoneStep_reset (env : Env) (oldDp newDp : DayPart) (draws : Nat → TickDraws)
    (rt : ZoneRuntime) (diffMs : Nat) (hdp : oldDp ≠ newDp) (hoff : rt.zoneOffsetMs ≤ diffMs)
    (hacc : rt.msAccumulator + diffMs < intervalMsOf env) :
    (SchedulerZoneStep env oldDp newDp draws rt diffMs).1.rpt = ⟨WEATHER_STATE_FINE, 0⟩ := by
  unfold SchedulerZoneStep
  by_cases h0 : 0 < rt.zoneOffsetMs
  · rw [if_pos h0]
    dsimp only
    rw [if_neg (by omega)]
    rw [SchedulerZoneAfterStagger_reset env oldDp newDp draws _ diffMs hdp
      (by dsimp only; omega)]
  · rw [if_neg h0]
    rw [SchedulerZoneAfterStagger_reset env oldDp newDp draws rt diffMs hdp hacc]

theorem rtC1'_eq : rtC1' = rtC1e := by
  norm_num [rtC1', rtC1e, PlanNewEffect, WeightedPick, eligiblePool, pickWalk, FindEntry,
    MapPercentToRawGrade, GetRange, ClampToCoreBounds, envC1, rtC1, cfgOneFog, BumpRepeat,
    WEATHER_STATE_FINE, max_def, min_def, kMinGrade, kMaxGrade, kEps, PushWeatherToClient,
    ZoneDaypartConfig.HasAnyActive]

theorem C1_fadein_push : (AdvanceFadeIn envC1 DayPart.MORNING {} rtC1').2.map Push.state
    = [rtC1.currentState] := by
  rw [rtC1'_eq]
  norm_num [AdvanceFadeIn, PushWeatherToClient, ClampToCoreBounds, FindEntry, rtC1e, rtC1,
    envC1, cfgOneFog, WEATHER_STATE_FINE, max_def, min_def, kMinGrade, kMaxGrade]

theorem rtC3'_eq : rtC3' = rtC3e := by
  norm_num [rtC3', rtC3e, PlanNewEffect, WeightedPick, eligiblePool, pickWalk, FindEntry,
    MapPercentToRawGrade, GetRange, ClampToCoreBounds, envC3, rtC3, cfgOneFog, BumpRepeat,
    WEATHER_STATE_FINE, max_def, min_def, kMinGrade, kMaxGrade, kEps, PushWeatherToClient,
    ZoneDaypartConfig.HasAnyActive]

theorem C3_first_push : (AdvanceFadeOut envC3 {} rtC3').2.map Push.grade = [9/20] := by
  rw [rtC3'_eq]
  norm_num [AdvanceFadeOut, PushWeatherToClient, ClampToCoreBounds, rtC3e, rtC3,
    envC3, WEATHER_STATE_FINE, max_def, min_def, kMinGrade, kMaxGrade]

theorem rtC4A'_eq : rtC4A' = rtC4Ae := by
  norm_num [rtC4A', rtC4Ae, PlanNewEffect, WeightedPick, eligiblePool, pickWalk, FindEntry,
    MapPercentToRawGrade, GetRange, ClampToCoreBounds, envC4A, rtC4A, cfgZeroPctFog, BumpRepeat,
    WEATHER_STATE_FINE, max_def, min_def, kMinGrade, kMaxGrade, kEps, PushWeatherToClient,
    ZoneDaypartConfig.HasAnyActive]

theorem C4_fadeout_run : ((iterFadeOut envC4A {} 4 rtC4A').2.map Push.grade).getLast?
    = some (7/10) := by
  rw [rtC4A'_eq]
  norm_num [iterFadeOut, AdvanceFadeOut, PushWeatherToClient, ClampToCoreBounds, rtC4Ae, rtC4A,
    envC4A, WEATHER_STATE_FINE, max_def, min_def, kMinGrade, kMaxGrade]

theorem rtC4B'_eq : rtC4B' = rtC4Be := by
  norm_num [rtC4B', rtC4Be, PlanNewEffect, WeightedPick, eligiblePool, pickWalk, FindEntry,
    MapPercentToRawGrade, GetRange, ClampToCoreBounds, envC4B, initRuntime, cfgFullFog,
    BumpRepeat, WEATHER_STATE_FINE, max_def, min_def, kMinGrade, kMaxGrade, kEps,
    PushWeatherToClient, ZoneDaypartConfig.HasAnyActive]

theorem C4_fadein_run : ((AdvanceFadeIn envC4B DayPart.MORNING {} rtC4B').2.map
    Push.grade).getLast? = some (9999/10000) := by
  rw [rtC4B'_eq]
  norm_num [AdvanceFadeIn, PushWeatherToClient, ClampToCoreBounds, FindEntry, rtC4Be,
    envC4B, cfgFullFog, WEATHER_STATE_FINE, max_def, min_def, kMinGrade, kMaxGrade]

theorem rtW_eq : rtW = rtWe := by
  norm_num [rtW, rtWe, PlanNewEffect, WeightedPick, eligiblePool, pickWalk, FindEntry,
    MapPercentToRawGrade, GetRange, ClampToCoreBounds, envW, initRuntime, cfgOneFog, BumpRepeat,
    WEATHER_STATE_FINE, max_def, min_def, kMinGrade, kMaxGrade, kEps, PushWeatherToClient,
    ZoneDaypartConfig.HasAnyActive]

theorem C5_pick_two : WeightedPick cfgC5 ⟨0, 2⟩ 2 0 = 1 := by
  norm_num [WeightedPick, eligiblePool, pickWalk, cfgC5, WEATHER_STATE_FINE]

theorem C5_pick_one : WeightedPick cfgC5b ⟨0, 2⟩ 2 0 = 0 := by
  norm_num [WeightedPick, eligiblePool, pickWalk, cfgC5b, WEATHER_STATE_FINE]

theorem clamp_idem (g : ℚ) : ClampToCoreBounds (ClampToCoreBounds g) = ClampToCoreBounds g := by
  by_cases h1 : g < 0
  · have h : ClampToCoreBounds g = kMinGrade := by
      unfold ClampToCoreBounds
      rw [if_pos h1]
    rw [h]
    exact clamp_eq_self (by norm_num [kMinGrade]) (by norm_num [kMinGrade])
  · by_cases h2 : 1 ≤ g
    · have h : ClampToCoreBounds g = kMaxGrade := by
        unfold ClampToCoreBounds
        rw [if_neg h1, if_pos h2]
      rw [h]
      exact clamp_eq_self (by norm_num [kMaxGrade]) (by norm_num [kMaxGrade])
    · have h : ClampToCoreBounds g = g := by
        unfold ClampToCoreBounds
        rw [if_neg h1, if_neg h2]
      rw [h, h]

theorem AdvanceFadeOut_first_push (env : Env) (fd : FadeDraws) (rt : ZoneRuntime)
    (hfos : 0 < rt.fadeOutStepsLeft) :
    ((AdvanceFadeOut env fd rt).2.map Push.grade).head? =
      some (ClampToCoreBounds (max rt.fadeOutTarget (rt.currentGrade - env.fadeStepValue))) := by
  unfold AdvanceFadeOut PushWeatherToClient
  rw [if_neg (by omega)]
  dsimp only
  rw [clamp_idem]
  split
  · split <;> rfl
  · rfl

theorem planC3_pair : PlanNewEffect envC3 DayPart.MORNING {} rtC3 = (rtC3e, []) := by
  norm_num [PlanNewEffect, WeightedPick, eligiblePool, pickWalk, FindEntry,
    MapPercentToRawGrade, GetRange, ClampToCoreBounds, envC3, rtC3, rtC3e, cfgOneFog, BumpRepeat,
    WEATHER_STATE_FINE, max_def, min_def, kMinGrade, kMaxGrade, kEps, PushWeatherToClient,
    ZoneDaypartConfig.HasAnyActive]

/-! ## Claim theorems -/

/-- C5: with the repeat ceiling reached for the last picked effect, a pool
holding two positive-weight candidates of distinct states never re-selects
the over-repeated effect, and when every positive-weight candidate is the
over-repeated effect itself the selector returns the last pick unchanged. -/
theorem C5_repeat_avoidance (cfg : ZoneDaypartConfig) (rpt : RepeatState) (R : Nat) (u : ℚ)
    (hR : rpt.repeats = R) :
    ((∃ e1 ∈ cfg.entries, ∃ e2 ∈ cfg.entries,
        0 < e1.weight ∧ 0 < e2.weight ∧ e1.state ≠ e2.state) →
      WeightedPick cfg rpt R u ≠ rpt.lastPicked) ∧
    ((∀ e ∈ cfg.entries, 0 < e.weight → e.state = rpt.lastPicked) →
      WeightedPick cfg rpt R u = rpt.lastPicked) := by
  constructor
  · rintro ⟨e1, he1, e2, he2, hw1, hw2, hne⟩
    obtain ⟨e, he, hw, hst⟩ : ∃ e ∈ cfg.entries, 0 < e.weight ∧ e.state ≠ rpt.lastPicked := by
      by_cases h : e1.state = rpt.lastPicked
      · exact ⟨e2, he2, hw2, fun hh => hne (by rw [h, hh])⟩
      · exact ⟨e1, he1, hw1, h⟩
    have hmemPool : e ∈ eligiblePool cfg rpt R := by
      unfold eligiblePool
      rw [List.mem_filter]
      refine ⟨he, ?_⟩
      simp [hw, hst]
    have hpoolne : eligiblePool cfg rpt R ≠ [] := by
      intro hnil
      rw [hnil] at hmemPool
      simp at hmemPool
    have hall : ∀ s ∈ (eligiblePool cfg rpt R).map ZoneEffectEntry.state,
        s ≠ rpt.lastPicked := by
      intro s hs
      rw [List.mem_map] at hs
      obtain ⟨a, ha, rfl⟩ := hs
      rw [eligiblePool, List.mem_filter] at ha
      have hpred := ha.2
      simp only [Bool.and_eq_true, Bool.not_eq_true', Bool.and_eq_false_iff,
        decide_eq_true_eq, decide_eq_false_iff_not] at hpred
      rcases hpred.2 with h | h
      · exact absurd (by omega) h
      · exact h
    unfold WeightedPick
    rw [if_neg (by simpa [List.isEmpty_iff] using hpoolne)]
    dsimp only
    rcases pickWalk_mem (u * ((eligiblePool cfg rpt R).map fun it => it.weight).sum)
        (eligiblePool cfg rpt R) _ with hfb | hmem
    · rw [hfb]
      rcases hlast : (eligiblePool cfg rpt R).getLast? with _ | l
      · exact absurd (List.getLast?_eq_none_iff.mp hlast) hpoolne
      · dsimp only
        have hg := List.getLast?_eq_getLast_of_ne_nil hpoolne
        rw [hlast] at hg
        injection hg with hg
        have hmeml : l ∈ eligiblePool cfg rpt R := by
          rw [hg]
          exact List.getLast_mem hpoolne
        exact hall l.state (List.mem_map_of_mem _ hmeml)
    · exact hall _ hmem
  · intro hAll
    have hpool : eligiblePool cfg rpt R = [] := by
      rw [eligiblePool, List.filter_eq_nil_iff]
      intro a ha
      by_cases hw : 0 < a.weight
      · have hst := hAll a ha hw
        simp [hw, hst, hR]
      · simp [hw]
    unfold WeightedPick
    rw [hpool]
    rfl

/-- C5 witness: with two equal-weight candidates Fine and Fog and the Fine
pick over-repeated, the selector picks a state other than Fine; with Fine
as the only candidate it keeps Fine. -/
theorem C5_repeat_avoidance_witness :
    WeightedPick cfgC5 ⟨0, 2⟩ 2 0 ≠ (RepeatState.mk 0 2).lastPicked ∧
    WeightedPick cfgC5b ⟨0, 2⟩ 2 0 = (RepeatState.mk 0 2).lastPicked := by
  constructor
  · exact (C5_repeat_avoidance cfgC5 ⟨0, 2⟩ 2 0 rfl).1
      ⟨⟨0, 1, 0, 0, 0, 0⟩, by simp [cfgC5], ⟨1, 1, 0, 0, 0, 0⟩, by simp [cfgC5],
        by norm_num, by norm_num, by norm_num⟩
  · refine (C5_repeat_avoidance cfgC5b ⟨0, 2⟩ 2 0 rfl).2 ?_
    intro e he hw
    simp [cfgC5b] at he
    rw [he]

/-- C1: when the planner selects a different effect whose planned fade-out
step count is zero and fade-in step count is positive, the phase becomes
FadeIn but the current effect id is never flipped to the new selection, so
the subsequent fade-in push carries the old effect id, contradicting the
stated switch at the fade-out to fade-in boundary (and the source comment
asserting the state is already new there). -/
theorem C1_code_evaluation :
    rtC1'.phase = Phase.FadeIn ∧
    rtC1'.fadeOutStepsLeft = 0 ∧
    0 < rtC1'.fadeInStepsLeft ∧
    rtC1'.nextState ≠ rtC1.currentState ∧
    rtC1'.currentState = rtC1.currentState ∧
    (AdvanceFadeIn envC1 DayPart.MORNING {} rtC1').2.map Push.state = [rtC1.currentState] ∧
    rtC1.currentState ≠ rtC1'.nextState := by
  refine ⟨by rw [rtC1'_eq]; rfl, by rw [rtC1'_eq]; rfl, by rw [rtC1'_eq]; norm_num [rtC1e],
    by rw [rtC1'_eq]; norm_num [rtC1e, rtC1, WEATHER_STATE_FINE],
    by rw [rtC1'_eq]; rfl, C1_fadein_push,
    by rw [rtC1'_eq]; norm_num [rtC1e, rtC1, WEATHER_STATE_FINE]⟩

/-- C2 counterexample: a daypart boundary tick in which a zone still holds
more stagger offset than the tick delta leaves that zone's repeat counter
untouched at five, refuting the reset for every zone. -/
theorem C2_counterexample :
    DayPart.MORNING ≠ DayPart.NIGHT ∧
    0 < rtC2.zoneOffsetMs ∧
    (SchedulerZoneStep envD DayPart.MORNING DayPart.NIGHT
        (fun _ => TickDraws.mk {} {}) rtC2 1000).1.rpt.repeats = 5 := by
  refine ⟨by decide, by decide, ?_⟩
  rw [SchedulerZoneStep_skip envD DayPart.MORNING DayPart.NIGHT _ rtC2 1000 (by decide)]
  rfl

/-- C2 amended: on a daypart change every zone whose remaining stagger
offset fits in the tick delta has its repeat state reset to
(WEATHER_STATE_FINE, 0) before any dispatch, for every phase; a zone whose
stagger exceeds the delta is skipped for the whole tick, repeat state
included. -/
theorem C2_bucket_reset (env : Env) (oldDp newDp : DayPart) (draws : Nat → TickDraws)
    (rt : ZoneRuntime) (diffMs : Nat) (hdp : oldDp ≠ newDp) :
    (rt.zoneOffsetMs ≤ diffMs → rt.msAccumulator + diffMs < intervalMsOf env →
      (SchedulerZoneStep env oldDp newDp draws rt diffMs).1.rpt = ⟨WEATHER_STATE_FINE, 0⟩) ∧
    (diffMs < rt.zoneOffsetMs →
      (SchedulerZoneStep env oldDp newDp draws rt diffMs).1.rpt = rt.rpt) := by
  constructor
  · exact fun hoff hacc => SchedulerZoneStep_reset env oldDp newDp draws rt diffMs hdp hoff hacc
  · intro h
    rw [SchedulerZoneStep_skip env oldDp newDp draws rt diffMs h]

/-- C2 witness: a staggered zone whose 500 ms offset is consumed inside a
600 ms boundary tick ends with repeat state (WEATHER_STATE_FINE, 0). -/
theorem C2_bucket_reset_witness :
    (SchedulerZoneStep envD DayPart.MORNING DayPart.NIGHT
        (fun _ => TickDraws.mk {} {}) rtC2w 600).1.rpt = ⟨WEATHER_STATE_FINE, 0⟩ :=
  (C2_bucket_reset envD DayPart.MORNING DayPart.NIGHT (fun _ => TickDraws.mk {} {}) rtC2w 600
    (by decide)).1 (by decide) (by decide)

/-- C3 counterexample: a Fine to Fog plan records fade-out start 9/10 (the
Fine band maximum) while the zone holds grade 1/2; the first fade-out step
pushes 9/20, one step below the held grade, not one step below the band
maximum. -/
theorem C3_counterexample :
    rtC3'.phase = Phase.FadeOut ∧
    rtC3'.fadeOutStart = 9/10 ∧
    rtC3'.nextState ≠ rtC3.currentState ∧
    (AdvanceFadeOut envC3 {} rtC3').2.map Push.grade = [9/20] ∧
    (9/20 : ℚ) ≠ rtC3'.fadeOutStart - envC3.fadeStepValue := by
  refine ⟨by rw [rtC3'_eq]; rfl, by rw [rtC3'_eq]; norm_num [rtC3e],
    by rw [rtC3'_eq]; norm_num [rtC3e, rtC3, WEATHER_STATE_FINE], C3_first_push,
    by rw [rtC3'_eq]; norm_num [rtC3e, envC3]⟩

/-- C3 amended: for an initialized zone whose planner selects a different
effect, the plan records fade-out start as the old effect band maximum and
target as the new effect band minimum and derives the step count from that
band delta, but each executed fade-out step descends from the intensity
the zone currently holds: the first step pushes
max(target, currentGrade - stepValue). -/
theorem C3_fadeout_plan (env : Env) (dp : DayPart) (d : PlanDraws) (rt rt' : ZoneRuntime)
    (ps : List Push) (cfg : ZoneDaypartConfig) (entry : ZoneEffectEntry) (pick : WeatherState)
    (hcfg : env.zoneModel dp rt.zoneId = some cfg)
    (hact : cfg.HasAnyActive = true)
    (hpick : WeightedPick cfg rt.rpt env.repeatMax d.pickU = pick)
    (hentry : FindEntry cfg pick = some entry)
    (hinit : rt.initialized = true)
    (hdiff : pick ≠ rt.currentState)
    (hplan : PlanNewEffect env dp d rt = (rt', ps)) :
    rt'.fadeOutStart = (GetRange env dp rt.currentState).max ∧
    rt'.fadeOutTarget = (GetRange env dp pick).min ∧
    rt'.currentGrade = rt.currentGrade ∧
    rt'.currentState = rt.currentState ∧
    rt'.fadeOutStepsLeft =
      (if max 0 ((GetRange env dp rt.currentState).max - (GetRange env dp pick).min) ≤ 0 then 0
       else ⌈max 0 ((GetRange env dp rt.currentState).max - (GetRange env dp pick).min)
              / env.fadeStepValue⌉) ∧
    ps = [] ∧
    (0 < rt'.fadeOutStepsLeft → ∀ fd : FadeDraws,
      ((AdvanceFadeOut env fd rt').2.map Push.grade).head? =
        some (ClampToCoreBounds (max rt'.fadeOutTarget (rt.currentGrade - env.fadeStepValue)))) := by
  unfold PlanNewEffect at hplan
  rw [hcfg] at hplan
  dsimp only at hplan
  rw [if_neg (by simp [hact]), hpick, hentry] at hplan
  dsimp only at hplan
  rw [if_neg (by simp [hinit]), if_neg (by simp [hdiff]), if_neg (by simp [hdiff])] at hplan
  injection hplan with h1 h2
  subst h2
  have hgr : rt'.currentGrade = rt.currentGrade := by
    rw [← h1]
    repeat' first
    | rfl
    | split
    | dsimp only
  refine ⟨?_, ?_, hgr, ?_, ?_, rfl, ?_⟩
  · rw [← h1]
    repeat' first
    | rfl
    | split
    | dsimp only
  · rw [← h1]
    repeat' first
    | rfl
    | split
    | dsimp only
  · rw [← h1]
    repeat' first
    | rfl
    | split
    | dsimp only
  · rw [← h1]
    repeat' first
    | rfl
    | split
    | dsimp only
  · intro hfos fd
    rw [← hgr]
    exact AdvanceFadeOut_first_push env fd rt' hfos

/-- C3 witness: the concrete Fine to Fog plan in envC3 exhibits the band
fade-out start and the current-grade based first step. -/
theorem C3_fadeout_plan_witness :
    rtC3'.fadeOutStart = (GetRange envC3 DayPart.MORNING rtC3.currentState).max ∧
    rtC3'.currentGrade = rtC3.currentGrade ∧
    (0 < rtC3'.fadeOutStepsLeft → ∀ fd : FadeDraws,
      ((AdvanceFadeOut envC3 fd rtC3').2.map Push.grade).head? =
        some (ClampToCoreBounds (max rtC3'.fadeOutTarget
          (rtC3.currentGrade - envC3.fadeStepValue)))) := by
  have h := C3_fadeout_plan envC3 DayPart.MORNING {} rtC3 rtC3' [] cfgOneFog
    ⟨1, 1, 50, 50, 10, 10⟩ 1
    (by rfl)
    (by norm_num [ZoneDaypartConfig.HasAnyActive, cfgOneFog])
    (by norm_num [WeightedPick, eligiblePool, pickWalk, cfgOneFog, rtC3, envC3,
      WEATHER_STATE_FINE])
    (by norm_num [FindEntry, cfgOneFog])
    (by rfl)
    (by norm_num [rtC3, WEATHER_STATE_FINE])
    (by rw [rtC3'_eq]; exact planC3_pair)
  exact ⟨h.1, h.2.2.1, h.2.2.2.2.2.2⟩

/-- C4 counterexample: a planned four-step fade-out executed from a grade
above the recorded band start ends at 7/10, not the target 3/10; and a
planned one-step fade-in whose apex is exactly 1 ends its final push at
9999/10000, not the apex. -/
theorem C4_counterexample :
    (rtC4A'.phase = Phase.FadeOut ∧ rtC4A'.fadeOutStepsLeft = 4 ∧
      rtC4A'.fadeOutTarget = 3/10 ∧
      ((iterFadeOut envC4A {} 4 rtC4A').2.map Push.grade).getLast? = some (7/10) ∧
      (7/10 : ℚ) ≠ 3/10) ∧
    (rtC4B'.phase = Phase.FadeIn ∧ rtC4B'.fadeInStepsLeft = 1 ∧ rtC4B'.apexTarget = 1 ∧
      ((AdvanceFadeIn envC4B DayPart.MORNING {} rtC4B').2.map Push.grade).getLast?
        = some (9999/10000) ∧
      (9999/10000 : ℚ) ≠ 1) := by
  refine ⟨⟨by rw [rtC4A'_eq]; rfl, by rw [rtC4A'_eq]; rfl,
      by rw [rtC4A'_eq]; norm_num [rtC4Ae], C4_fadeout_run, by norm_num⟩,
    ⟨by rw [rtC4B'_eq]; rfl, by rw [rtC4B'_eq]; rfl,
      by rw [rtC4B'_eq]; norm_num [rtC4Be], C4_fadein_run, by norm_num⟩⟩

/-- C4 amended: a fade with nonzero planned steps never overshoots (every
fade-in push is at most the apex, every fade-out push at least the
target). After exactly stepsLeft fade-in invocations the held grade equals
the apex and the final push is exactly the apex, provided the planned
values satisfy 0 at most fadeInStart at most apex below 1; after exactly
stepsLeft fade-out invocations the held grade equals the target provided
the step count was derived from the planned start and the zone's current
grade does not exceed that start. -/
theorem C4_fade_convergence (env : Env) (d : FadeDraws) (dp : DayPart)
    (rtOut rtIn : ZoneRuntime) (n m : Nat)
    (hstep : 0 < env.fadeStepValue)
    (hofos : rtOut.fadeOutStepsLeft = (n : ℤ)) (hn : 0 < n)
    (hnceil : (n : ℤ) = ⌈(rtOut.fadeOutStart - rtOut.fadeOutTarget) / env.fadeStepValue⌉)
    (hofis : rtOut.fadeInStepsLeft ≤ 0)
    (hot0 : 0 ≤ rtOut.fadeOutTarget) (hot1 : rtOut.fadeOutTarget < 1)
    (hog : rtOut.currentGrade < 1) (hogs : rtOut.currentGrade ≤ rtOut.fadeOutStart)
    (hifis : rtIn.fadeInStepsLeft = ((m + 1 : Nat) : ℤ))
    (hi0 : 0 ≤ rtIn.fadeInStart) (hi1 : rtIn.fadeInStart ≤ rtIn.apexTarget)
    (hi2 : rtIn.apexTarget < 1) :
    (iterFadeOut env d n rtOut).2.length = n ∧
    (∀ p ∈ (iterFadeOut env d n rtOut).2, rtOut.fadeOutTarget ≤ p.grade) ∧
    (iterFadeOut env d n rtOut).1.currentGrade = rtOut.fadeOutTarget ∧
    (iterFadeIn env dp d (m + 1) rtIn).2.length = m + 2 ∧
    (∀ p ∈ (iterFadeIn env dp d (m + 1) rtIn).2, p.grade ≤ rtIn.apexTarget) ∧
    ((iterFadeIn env dp d (m + 1) rtIn).2.map Push.grade).getLast? = some rtIn.apexTarget ∧
    (iterFadeIn env dp d (m + 1) rtIn).1.currentGrade = rtIn.apexTarget := by
  obtain ⟨og, olen, omem, _olast⟩ :=
    iterFadeOut_spec env d hstep n rtOut hofos hofis hot0 hot1 hog
  obtain ⟨ig, ilen, imem, ilast⟩ :=
    iterFadeIn_spec env dp d hstep m rtIn hifis hi0 hi1 hi2
  refine ⟨olen, omem, ?_, ilen, imem, ilast, ig⟩
  have hceil := Int.le_ceil ((rtOut.fadeOutStart - rtOut.fadeOutTarget) / env.fadeStepValue)
  rw [← hnceil] at hceil
  push_cast at hceil
  rw [div_le_iff hstep] at hceil
  have h2 : rtOut.currentGrade - (n : ℚ) * env.fadeStepValue ≤ rtOut.fadeOutTarget := by
    linarith
  rw [og, if_neg (by omega), max_eq_left h2]

/-- C4 witness: a concrete four-step planned fade-out converges to its
target and a concrete seven-step fade-in converges to its apex. -/
theorem C4_fade_convergence_witness :
    (iterFadeOut envD {} 4 rtOutW).2.length = 4 ∧
    (iterFadeOut envD {} 4 rtOutW).1.currentGrade = rtOutW.fadeOutTarget ∧
    (iterFadeIn envD DayPart.MORNING {} 7 rtInW).1.currentGrade = rtInW.apexTarget := by
  have h := C4_fade_convergence envD {} DayPart.MORNING rtOutW rtInW 4 6
    (by norm_num [envD])
    (by norm_num [rtOutW]) (by norm_num)
    (by norm_num [rtOutW, envD])
    (by norm_num [rtOutW])
    (by norm_num [rtOutW]) (by norm_num [rtOutW])
    (by norm_num [rtOutW]) (by norm_num [rtOutW])
    (by norm_num [rtInW])
    (by norm_num [rtInW]) (by norm_num [rtInW]) (by norm_num [rtInW])
  exact ⟨h.1, h.2.2.1, h.2.2.2.2.2.2⟩

/-- C6: every pushed intensity is the ClampToCoreBounds image of the raw
grade, lies in the half-open band 0 at most grade below 1, raises raw
grades below zero to kMinGrade, pulls raw grades at or above one back to
kMaxGrade, and the same normalised value is what the last-applied cache
records. -/
theorem C6_push_bounds (g : ℚ) (zoneId : Nat) (st : WeatherState)
    (m : Nat → Option LastApplied) :
    0 ≤ (PushWeatherToClient zoneId st g).grade ∧
    (PushWeatherToClient zoneId st g).grade < 1 ∧
    (PushWeatherToClient zoneId st g).grade = ClampToCoreBounds g ∧
    (g < 0 → ClampToCoreBounds g = kMinGrade) ∧
    (1 ≤ g → ClampToCoreBounds g = kMaxGrade) ∧
    applyPush m (PushWeatherToClient zoneId st g) zoneId =
      some ⟨st, ClampToCoreBounds g, true⟩ := by
  have h1 : ∀ x : ℚ, 0 ≤ ClampToCoreBounds x ∧ ClampToCoreBounds x < 1 := by
    intro x
    unfold ClampToCoreBounds
    split_ifs with ha hb
    · constructor <;> norm_num [kMinGrade]
    · constructor <;> norm_num [kMaxGrade]
    · exact ⟨le_of_not_lt ha, lt_of_not_le hb⟩
  refine ⟨(h1 g).1, (h1 g).2, rfl, ?_, ?_, ?_⟩
  · intro h
    unfold ClampToCoreBounds
    rw [if_pos h]
  · intro h
    unfold ClampToCoreBounds
    rw [if_neg (by linarith), if_pos h]
  · unfold applyPush PushWeatherToClient
    simp

/-- C6 witness: a raw grade of minus one is raised to kMinGrade, a raw
grade of two is pulled back to kMaxGrade, and an in-band push is
nonnegative. -/
theorem C6_push_bounds_witness :
    ClampToCoreBounds (-1) = kMinGrade ∧ ClampToCoreBounds 2 = kMaxGrade ∧
    0 ≤ (PushWeatherToClient 1 0 (1/2)).grade :=
  ⟨(C6_push_bounds (-1) 1 0 (fun _ => none)).2.2.2.1 (by norm_num),
   (C6_push_bounds 2 1 0 (fun _ => none)).2.2.2.2.1 (by norm_num),
   (C6_push_bounds (1/2) 1 0 (fun _ => none)).1⟩

/-- C7: when the zone has no daypart config or no positive-weight
candidate, the planner only sets the phase to Idle: every other runtime
field is unchanged, no push is emitted and the last-applied cache is left
exactly as it was. -/
theorem C7_idle_noop (env : Env) (dp : DayPart) (d : PlanDraws) (rt : ZoneRuntime)
    (h : env.zoneModel dp rt.zoneId = none ∨
      ∃ cfg, env.zoneModel dp rt.zoneId = some cfg ∧ cfg.HasAnyActive = false) :
    PlanNewEffect env dp d rt = ({ rt with phase := Phase.Idle }, []) ∧
    ∀ m, applyPushes m (PlanNewEffect env dp d rt).2 = m := by
  have hmain : PlanNewEffect env dp d rt = ({ rt with phase := Phase.Idle }, []) := by
    unfold PlanNewEffect
    rcases h with h | ⟨cfg, hcfg, hact⟩
    · rw [h]
    · rw [hcfg]
      dsimp only
      rw [if_pos hact]
  refine ⟨hmain, fun m => ?_⟩
  rw [hmain]
  rfl

/-- C7 witness: in the default environment with no zone models, planning
for a fresh zone yields Idle with no other change and no push. -/
theorem C7_idle_noop_witness :
    PlanNewEffect envD DayPart.MORNING {} (initRuntime 5 0)
      = ({ initRuntime 5 0 with phase := Phase.Idle }, []) :=
  (C7_idle_noop envD DayPart.MORNING {} (initRuntime 5 0) (Or.inl rfl)).1

/-- C8: while the cumulative tick time is below the remaining stagger
offset a zone performs no planning, fade or dwell work and pushes nothing,
only its offset shrinking; each tick consumes exactly min(offset, delta)
of the budget, so consumption is monotone, and an offset of zero stays
zero forever. -/
theorem C8_stagger (env : Env) (ticks : List (DayPart × DayPart × (Nat → TickDraws) × Nat))
    (rt : ZoneRuntime) :
    ((ticks.map fun t => t.2.2.2).sum < rt.zoneOffsetMs →
      runTicks env ticks rt =
        ({ rt with zoneOffsetMs := rt.zoneOffsetMs - (ticks.map fun t => t.2.2.2).sum }, [])) ∧
    (∀ (oldDp newDp : DayPart) (draws : Nat → TickDraws) (diffMs : Nat),
      (SchedulerZoneStep env oldDp newDp draws rt diffMs).1.zoneOffsetMs
        = rt.zoneOffsetMs - min rt.zoneOffsetMs diffMs) ∧
    (rt.zoneOffsetMs = 0 → ∀ (oldDp newDp : DayPart) (draws : Nat → TickDraws) (diffMs : Nat),
      (SchedulerZoneStep env oldDp newDp draws rt diffMs).1.zoneOffsetMs = 0) := by
  refine ⟨runTicks_stagger env ticks rt,
    fun o nw dr df => SchedulerZoneStep_zoneOffset env o nw dr rt df, ?_⟩
  intro h0 o nw dr df
  rw [SchedulerZoneStep_zoneOffset, h0]
  omega

/-- C8 witness: a zone with 5000 ms of stagger receiving one 1000 ms tick
does nothing except reduce its offset to 4000 ms. -/
theorem C8_stagger_witness :
    runTicks envD [(DayPart.MORNING, DayPart.MORNING, fun _ => TickDraws.mk {} {}, 1000)] rtC2
      = ({ rtC2 with zoneOffsetMs := 4000 }, []) := by
  have h := (C8_stagger envD
    [(DayPart.MORNING, DayPart.MORNING, fun _ => TickDraws.mk {} {}, 1000)] rtC2).1 (by decide)
  exact h

/-- C9: in every scheduler-reachable zone state, phase FadeIn implies a
fade-in step counter of at least one, so the early-return of the fade-in
executor is unreachable and every dispatched fade-in invocation pushes at
least one intensity to the sink. -/
theorem C9_fadein_positive (env : Env) (rt : ZoneRuntime) (h : Reachable env rt) :
    (rt.phase = Phase.FadeIn → 1 ≤ rt.fadeInStepsLeft) ∧
    (rt.phase = Phase.FadeIn → ∀ (dp : DayPart) (d : FadeDraws),
      (AdvanceFadeIn env dp d rt).2 ≠ []) := by
  have hinv := Reachable_inv env rt h
  refine ⟨hinv, ?_⟩
  intro hph dp d
  have hfis := hinv hph
  unfold AdvanceFadeIn
  rw [if_neg (by omega)]
  dsimp only
  split
  · simp
  · simp

/-- C9 witness: the first-run plan of envW reaches FadeIn with seven steps
remaining. -/
theorem C9_fadein_positive_witness :
    rtW.phase = Phase.FadeIn ∧ 1 ≤ rtW.fadeInStepsLeft := by
  have hreach : Reachable envW rtW :=
    Reachable.plan (initRuntime 1 0) DayPart.MORNING {} (Reachable.seed 1 0)
  have hph : rtW.phase = Phase.FadeIn := by
    rw [rtW_eq]
    rfl
  exact ⟨hph, (C9_fadein_positive envW rtW hreach).1 hph⟩

/-- C10: the catch-up loop always exits with the accumulator reduced to
its remainder modulo the scheduling interval, the interval used by the
loop is positive for every configuration, and a configured interval of
zero seconds is coerced to one second. -/
theorem C10_loop_terminates (env : Env) (dp : DayPart) (draws : Nat → TickDraws)
    (k acc : Nat) (rt : ZoneRuntime) :
    (CatchUpLoop env dp draws k acc rt).1.msAccumulator = acc % intervalMsOf env ∧
    0 < intervalMsOf env ∧
    intervalMsOf { env with intervalSec := 0 } = 1000 := by
  refine ⟨?_, intervalMsOf_pos env, by norm_num [intervalMsOf]⟩
  unfold CatchUpLoop
  exact CatchUpGo_msAccumulator env dp draws (acc + 1) k acc rt (by omega)

end WeatherVibe
